import Mathlib

/-!
Verification of the deterministic alarm-classification core of the
ai-alert-assistant repository: the rule-based event classifier
(`src/tools/analysis/event_identification.py`), the keyword extractor and
documentation-search fallback (`src/tools/analysis/alarm_documentation.py`,
`src/agents/analysis.py`), the troubleshooting knowledge base
(`src/tools/analysis/troubleshooting_steps.py`), and the sequential pipeline
with fallback-to-prior-stage policy (`src/core/application.py`,
`src/agents/frontline_response.py`).

Alarm texts are modelled as `List Char`; Python substring membership
(`pat in s`) is `pyIn`, and `str.lower` is modelled character-wise by
`Char.toLower` (the ASCII lowering, which covers the classifier's ASCII
rule vocabulary).  Fallible external calls (the Confluence search, the
downstream agents) are modelled as explicit function arguments returning
`Except` or structured results, exactly mirroring the `try/except` and
status-dict handling of the Python source.
-/

namespace AlertAssistant

/-- Python `pat in s` (substring containment) on character lists. -/
def pyIn (pat : List Char) : List Char → Bool
  | [] => pat.isEmpty
  | c :: rest => pat.isPrefixOf (c :: rest) || pyIn pat rest

/-- Python `str.lower`, modelled character-wise (ASCII lowering). -/
def pyLower (s : List Char) : List Char :=
  s.map Char.toLower

/-- CPU-high rule predicate of `identify_event_id` (line 27-29 of
`event_identification.py`), on the already-lowered alarm text. -/
def cpu_rule (l : List Char) : Bool :=
  pyIn "cpu".toList l &&
    (pyIn "high".toList l || pyIn "90".toList l || pyIn "95".toList l)

/-- Memory-critical rule predicate (line 31-33). -/
def memory_rule (l : List Char) : Bool :=
  pyIn "memory".toList l &&
    (pyIn "critical".toList l || pyIn "exhausted".toList l)

/-- Connection-limit rule predicate (line 35-37). -/
def connection_rule (l : List Char) : Bool :=
  pyIn "connection".toList l &&
    (pyIn "limit".toList l || pyIn "maximum".toList l)

/-- Disk-space rule predicate (line 39-41). -/
def disk_rule (l : List Char) : Bool :=
  pyIn "disk".toList l &&
    (pyIn "space".toList l || pyIn "full".toList l)

/-- Service/application-down rule predicate (line 43-45). -/
def service_rule (l : List Char) : Bool :=
  (pyIn "service".toList l || pyIn "application".toList l) &&
    (pyIn "down".toList l || pyIn "failed".toList l ||
      pyIn "unavailable".toList l)

/-- Authentication rule predicate (line 47). -/
def auth_rule (l : List Char) : Bool :=
  pyIn "authentication".toList l || pyIn "login".toList l

/-- Network/timeout rule predicate (line 49). -/
def network_rule (l : List Char) : Bool :=
  pyIn "network".toList l || pyIn "timeout".toList l

/-- `identify_event_id` from `src/tools/analysis/event_identification.py`:
lower the alarm message, then run the fixed first-match if/elif chain.
The `documentation` argument is kept with the source's signature; the body
never consults it, exactly as in the source. -/
def identify_event_id {α : Type} (alarm_message : List Char)
    (documentation : α) : String :=
  let alarm_lower := pyLower alarm_message
  if cpu_rule alarm_lower then "SYS-001"
  else if memory_rule alarm_lower then "SYS-002"
  else if connection_rule alarm_lower then "NET-001"
  else if disk_rule alarm_lower then "STO-001"
  else if service_rule alarm_lower then "APP-001"
  else if auth_rule alarm_lower then "AUTH-001"
  else if network_rule alarm_lower then "NET-002"
  else "ALERT-UNKNOWN"

example : identify_event_id "CPU usage is HIGH".toList () = "SYS-001" := by decide
example : identify_event_id "memory critical".toList () = "SYS-002" := by decide
example : identify_event_id "cpu at 195".toList () = "SYS-001" := by decide
example : identify_event_id "gibberish xyz".toList () = "ALERT-UNKNOWN" := by decide

/-- The remediation record stored per event ID in
`src/tools/analysis/troubleshooting_steps.py` (event name, immediate
actions, escalation policy, severity). -/
structure RemediationRecord where
  event_name : String
  immediate_actions : List String
  escalation : String
  severity : String
deriving DecidableEq, Repr

/-- The static `alert_steps` table of `_get_predefined_steps`
(`troubleshooting_steps.py`, lines 19-97), as an association list in the
source's key order. -/
def alert_steps : List (String × RemediationRecord) :=
  [ ("SYS-001",
     { event_name := "High CPU Usage"
       immediate_actions :=
         [ "Check top processes consuming CPU"
         , "Review system load averages"
         , "Identify resource-intensive applications"
         , "Consider scaling or load balancing" ]
       escalation := "If CPU remains high for >15 minutes, page on-call engineer"
       severity := "Critical" })
  , ("SYS-002",
     { event_name := "Memory Pressure"
       immediate_actions :=
         [ "Review memory usage by processes"
         , "Check for memory leaks in applications"
         , "Clear unnecessary caches"
         , "Monitor swap usage and consider restart" ]
       escalation := "Critical - immediate system admin involvement required"
       severity := "Critical" })
  , ("NET-001",
     { event_name := "Connection Limit Reached"
       immediate_actions :=
         [ "Review active connections"
         , "Check for connection leaks in applications"
         , "Increase connection limits if appropriate"
         , "Monitor connection pool usage" ]
       escalation := "If connections don\x27t decrease within 10 minutes"
       severity := "Critical" })
  , ("STO-001",
     { event_name := "Disk Space Low"
       immediate_actions :=
         [ "Identify largest files and directories"
         , "Clean up temporary files and logs"
         , "Archive old data if possible"
         , "Consider adding storage capacity" ]
       escalation := "If disk usage >95%, immediate action required"
       severity := "High" })
  , ("APP-001",
     { event_name := "Service/Application Down"
       immediate_actions :=
         [ "Check service status and logs"
         , "Attempt service restart"
         , "Verify dependencies are running"
         , "Check for recent deployments or changes" ]
       escalation := "If service doesn\x27t recover in 5 minutes, escalate"
       severity := "Critical" })
  , ("AUTH-001",
     { event_name := "Authentication Issues"
       immediate_actions :=
         [ "Check authentication service status"
         , "Review authentication logs"
         , "Verify user credentials and permissions"
         , "Check network connectivity to auth services" ]
       escalation := "If affecting multiple users, escalate immediately"
       severity := "High" })
  , ("NET-002",
     { event_name := "Network/Timeout Issues"
       immediate_actions :=
         [ "Check network connectivity"
         , "Review firewall and routing rules"
         , "Test DNS resolution"
         , "Monitor network latency and packet loss" ]
       escalation := "If affecting multiple services, escalate"
       severity := "High" })
  ]

/-- The default record returned by `alert_steps.get(event_id, {...})` for
identifiers absent from the table (`troubleshooting_steps.py`,
lines 99-107). -/
def unknown_steps : RemediationRecord :=
  { event_name := "Unknown Event"
    immediate_actions := ["Review alarm details", "Check system logs"]
    escalation := "Contact system admin team for analysis"
    severity := "Unknown" }

/-- `_get_predefined_steps` from `troubleshooting_steps.py`: Python
`dict.get(event_id, default)` over the static table. -/
def _get_predefined_steps (event_id : String) : RemediationRecord :=
  (alert_steps.lookup event_id).getD unknown_steps

/-- `get_troubleshooting_steps` from `troubleshooting_steps.py`: delegates
to `_get_predefined_steps` (the logger call has no effect on the result). -/
def get_troubleshooting_steps (event_id : String) : RemediationRecord :=
  _get_predefined_steps event_id

/-- `get_troubleshooting_steps` with the ambient process state threaded
explicitly: the Python function reads its argument and the static literal
table only, and writes nothing (the logger side channel is outside the
modelled state), so the state passes through unchanged. -/
def get_troubleshooting_stepsSt {σ : Type} (world : σ) (event_id : String) :
    RemediationRecord × σ :=
  (_get_predefined_steps event_id, world)

example : (get_troubleshooting_steps "SYS-001").severity = "Critical" := by decide
example : (get_troubleshooting_steps "ALERT-UNKNOWN").event_name = "Unknown Event" := by
  decide

/-- The fixed `alert_keywords` vocabulary of `_extract_keywords`
(`alarm_documentation.py`, lines 65-83), in source order. -/
def alert_keywords : List (List Char) :=
  [ "cpu".toList, "memory".toList, "disk".toList, "connection".toList,
    "replication".toList, "deadlock".toList, "backup".toList,
    "performance".toList, "query".toList, "lock".toList, "network".toList,
    "application".toList, "service".toList, "server".toList,
    "storage".toList, "authentication".toList, "timeout".toList ]

/-- Tokenizer for Python `re.findall(r"\d+%?", s)`: `cur` holds the digit
run currently being matched, in reverse; a run is emitted at its maximal
extent, taking one following percent sign if present. -/
def findNumbersAux : List Char → List Char → List (List Char)
  | [], cur => if cur.isEmpty then [] else [cur.reverse]
  | c :: rest, cur =>
    if c.isDigit then findNumbersAux rest (c :: cur)
    else if c == '%' && !cur.isEmpty then
      (cur.reverse ++ ['%']) :: findNumbersAux rest []
    else if cur.isEmpty then findNumbersAux rest []
    else cur.reverse :: findNumbersAux rest []

/-- `re.findall(r"\d+%?", s)` from `_extract_keywords`
(`alarm_documentation.py`, line 91): all maximal digit runs, each with an
optional trailing percent sign, left to right. -/
def findNumbers (s : List Char) : List (List Char) :=
  findNumbersAux s []

example : findNumbers "at 95% (190)".toList = ["95%".toList, "190".toList] := by decide
example : findNumbers "%x9%5".toList = ["9%".toList, "5".toList] := by decide

/-- `_extract_keywords` from `alarm_documentation.py` (identical to
`AlertAnalysisAgent._extract_keywords` in `agents/analysis.py`): append
each vocabulary keyword contained in the lowered text, in vocabulary scan
order, then append all numeric tokens found in the original text. -/
def _extract_keywords (alarm_message : List Char) : List (List Char) :=
  let alarm_lower := pyLower alarm_message
  let keywords := alert_keywords.foldl
    (fun acc keyword =>
      if pyIn keyword alarm_lower then acc ++ [keyword] else acc) []
  keywords ++ findNumbers alarm_message

example :
    _extract_keywords "Memory and CPU at 95%".toList =
      ["cpu".toList, "memory".toList, "95%".toList] := by decide

/-- The status dictionary returned by
`mcp_manager.search_confluence_content`, as read by
`search_alarm_documentation`: a `status` entry (absent keys read as `none`
via `dict.get`) and a `fallback` entry defaulting to false. -/
structure SearchResult where
  status : Option String := none
  fallback : Option Bool := none
deriving DecidableEq, Repr

/-- The dictionary returned by `search_alarm_documentation`
(`alarm_documentation.py`, lines 39-46 and 49-56): the fallback branch has
no `search_results` key and the success branch has no `error` key, modelled
with `Option`. -/
structure DocSearchOutcome where
  alarm_message : List Char
  keywords : List (List Char)
  search_performed : Bool
  search_results : Option SearchResult
  error : Option String
  documentation_found : Bool
  fallback_used : Bool
deriving DecidableEq, Repr

/-- `search_alarm_documentation` from `alarm_documentation.py`: extract
keywords, join them with spaces into the search query, and call the
external search; the `try/except` around that call is modelled by the
search returning `Except`, with the `.error` branch producing the fallback
dictionary of lines 49-56. -/
def search_alarm_documentation
    (search_confluence_content : List Char → Except String SearchResult)
    (alarm_message : List Char) : DocSearchOutcome :=
  let keywords := _extract_keywords alarm_message
  let search_query := List.intercalate [' '] keywords
  match search_confluence_content search_query with
  | .ok search_result =>
    { alarm_message := alarm_message
      keywords := keywords
      search_performed :=
        search_result.status == some "success" ||
          search_result.status == some "partial_success"
      search_results := some search_result
      error := none
      documentation_found := search_result.status == some "success"
      fallback_used := search_result.fallback.getD false }
  | .error e =>
    { alarm_message := alarm_message
      keywords := keywords
      search_performed := false
      search_results := none
      error := some e
      documentation_found := false
      fallback_used := true }

/-- The dictionary returned by `AlertAnalysisAgent.analyze_alert` and by
`AIAlertAssistant.analyze_alert` (`agents/analysis.py` lines 384-392,
`core/application.py` lines 86-94): alert message, response text, optional
error, and a terminal status string. -/
structure AnalysisResult where
  alert_message : List Char
  analysis_response : String
  error : Option String
  status : String
deriving DecidableEq, Repr

/-- The dictionary returned by `FrontlineResponseAgent.take_action`
(`agents/frontline_response.py`, lines 64-78). -/
structure ActionResult where
  alarm_text : List Char
  analysis : String
  response : String
  error : Option String
  status : String
deriving DecidableEq, Repr

/-- `AIAlertAssistant.analyze_alert` from `core/application.py`
(lines 74-94), with the two initialized agents passed as functions (the
not-initialized guards of lines 66-72 concern construction failure and are
outside this model): run the analysis agent; if it did not succeed return
its result; otherwise run the frontline-response agent on the analysis
response, returning the fresh success dictionary on success and falling
back to the original analysis result otherwise. -/
def analyze_alert
    (run_analysis : List Char → AnalysisResult)
    (take_action : List Char → String → ActionResult)
    (alert_message : List Char) : AnalysisResult :=
  let analysis_result := run_analysis alert_message
  if analysis_result.status ≠ "success" then analysis_result
  else
    let response_result :=
      take_action alert_message analysis_result.analysis_response
    if response_result.status = "success" then
      { alert_message := alert_message
        analysis_response := response_result.response
        error := none
        status := "success" }
    else analysis_result

/-- Recognizer for the suffix of a numeric token after its first digit:
zero or more digits, then an optional final percent sign. -/
def numTail : List Char → Bool
  | [] => true
  | c :: rest => if c == '%' then rest.isEmpty else c.isDigit && numTail rest

/-- Recognizer for the regex `\d+%?`: one or more digits followed by an
optional percent sign.  Used to state that every token produced by
`findNumbers` is numeric in the sense of the extraction pattern. -/
def isNumericToken : List Char → Bool
  | [] => false
  | c :: rest => c.isDigit && numTail rest

example : isNumericToken "95%".toList = true := by decide
example : isNumericToken "190".toList = true := by decide
example : isNumericToken "%5".toList = false := by decide

/-! ## Helper lemmas -/

theorem ne_percent_of_isDigit (c : Char) (h : c.isDigit = true) :
    (c == '%') = false := by
  cases hc : (c == '%') with
  | false => rfl
  | true =>
    have hce : c = '%' := eq_of_beq hc
    subst hce
    exact absurd h (by decide)

theorem numTail_of_digits :
    ∀ d : List Char, d.all Char.isDigit = true → numTail d = true := by
  intro d
  induction d with
  | nil => intro _; rfl
  | cons c rest ih =>
    intro h
    rw [List.all_cons, Bool.and_eq_true] at h
    simp [numTail, ne_percent_of_isDigit c h.1, h.1, ih h.2]

theorem numTail_append_percent :
    ∀ d : List Char, d.all Char.isDigit = true →
      numTail (d ++ ['%']) = true := by
  intro d
  induction d with
  | nil => intro _; rfl
  | cons c rest ih =>
    intro h
    rw [List.all_cons, Bool.and_eq_true] at h
    simp [numTail, ne_percent_of_isDigit c h.1, h.1]
    exact ih h.2

theorem isNumericToken_digits (d : List Char) (hne : d ≠ [])
    (h : d.all Char.isDigit = true) : isNumericToken d = true := by
  cases d with
  | nil => exact absurd rfl hne
  | cons c rest =>
    rw [List.all_cons, Bool.and_eq_true] at h
    simp [isNumericToken, h.1, numTail_of_digits rest h.2]

theorem isNumericToken_digits_percent (d : List Char) (hne : d ≠ [])
    (h : d.all Char.isDigit = true) :
    isNumericToken (d ++ ['%']) = true := by
  cases d with
  | nil => exact absurd rfl hne
  | cons c rest =>
    rw [List.all_cons, Bool.and_eq_true] at h
    simp [isNumericToken, List.cons_append, h.1]
    exact numTail_append_percent rest h.2

theorem findNumbersAux_all_numeric :
    ∀ s cur : List Char, cur.all Char.isDigit = true →
      (findNumbersAux s cur).all isNumericToken = true := by
  intro s
  induction s with
  | nil =>
    intro cur hcur
    by_cases h : cur.isEmpty
    · simp [findNumbersAux, h]
    · have hne : cur ≠ [] := by simpa [List.isEmpty_iff] using h
      simp [findNumbersAux, h]
      exact isNumericToken_digits _ (by simpa using hne) (by simpa using hcur)
  | cons c rest ih =>
    intro cur hcur
    by_cases hd : c.isDigit
    · have hall : (c :: cur).all Char.isDigit = true := by
        simp [List.all_cons, hd, hcur]
      simpa [findNumbersAux, hd] using ih (c :: cur) hall
    · by_cases hc : (c == '%') = true
      · by_cases h0 : cur.isEmpty
        · simpa [findNumbersAux, hd, hc, h0] using ih [] rfl
        · have hne : cur ≠ [] := by simpa [List.isEmpty_iff] using h0
          simp [findNumbersAux, hd, hc, h0]
          constructor
          · have hpc : c = '%' := eq_of_beq hc
            subst hpc
            exact isNumericToken_digits_percent _ (by simpa using hne)
              (by simpa using hcur)
          · simpa using ih [] rfl
      · by_cases h0 : cur.isEmpty
        · simpa [findNumbersAux, hd, hc, h0] using ih [] rfl
        · have hne : cur ≠ [] := by simpa [List.isEmpty_iff] using h0
          simp [findNumbersAux, hd, hc, h0]
          constructor
          · exact isNumericToken_digits _ (by simpa using hne)
              (by simpa using hcur)
          · simpa using ih [] rfl

theorem foldl_append_if_eq_filter (p : List Char → Bool) :
    ∀ l acc : List (List Char),
      l.foldl (fun acc k => if p k then acc ++ [k] else acc) acc
        = acc ++ l.filter p := by
  intro l
  induction l with
  | nil => intro acc; simp
  | cons hd tl ih =>
    intro acc
    by_cases h : p hd
    · simp [List.foldl_cons, h, ih]
    · simp [List.foldl_cons, h, ih]

theorem lookup_eq_none_of_not_mem_keys {β : Type} :
    ∀ (l : List (String × β)) (k : String),
      k ∉ l.map Prod.fst → l.lookup k = none := by
  intro l
  induction l with
  | nil => intro k _; rfl
  | cons hd tl ih =>
    intro k h
    obtain ⟨a, b⟩ := hd
    rw [List.map_cons, List.mem_cons] at h
    push_neg at h
    have hne : (k == a) = false := by
      cases hk : (k == a) with
      | false => rfl
      | true => exact absurd (eq_of_beq hk) h.1
    rw [List.lookup_cons, hne]
    exact ih k h.2

/-! ## Claim theorems -/

/-- C1: rule precedence is first-match under the fixed order: an alarm text
satisfying both the CPU-high predicate and the memory-critical predicate is
classified "SYS-001" by `identify_event_id`, never "SYS-002". -/
theorem claim1_cpu_rule_precedes_memory_rule {α : Type}
    (alarm_message : List Char) (d : α)
    (hcpu : cpu_rule (pyLower alarm_message) = true)
    (hmem : memory_rule (pyLower alarm_message) = true) :
    identify_event_id alarm_message d = "SYS-001" := by
  simp [identify_event_id, hcpu]

theorem claim1_witness :
    cpu_rule (pyLower "cpu high memory critical".toList) = true ∧
    memory_rule (pyLower "cpu high memory critical".toList) = true ∧
    identify_event_id "cpu high memory critical".toList 0 = "SYS-001" :=
  ⟨by decide, by decide,
    claim1_cpu_rule_precedes_memory_rule _ 0 (by decide) (by decide)⟩

/-- C2: every alarm text containing "cpu" and "high" case-insensitively is
classified "SYS-001" by `identify_event_id`, whatever else it contains. -/
theorem claim2_cpu_high_classifies_sys001 {α : Type}
    (alarm_message : List Char) (d : α)
    (hcpu : pyIn "cpu".toList (pyLower alarm_message) = true)
    (hhigh : pyIn "high".toList (pyLower alarm_message) = true) :
    identify_event_id alarm_message d = "SYS-001" := by
  have hr : cpu_rule (pyLower alarm_message) = true := by
    unfold cpu_rule
    rw [hcpu, hhigh]
    simp
  simp [identify_event_id, hr]

theorem claim2_witness :
    pyIn "cpu".toList (pyLower "Server CPU High, other text 42".toList) = true ∧
    pyIn "high".toList (pyLower "Server CPU High, other text 42".toList) = true ∧
    identify_event_id "Server CPU High, other text 42".toList 0 = "SYS-001" :=
  ⟨by decide, by decide,
    claim2_cpu_high_classifies_sys001 _ 0 (by decide) (by decide)⟩

/-- C3: an alarm text matching none of the seven rule predicates is
classified to the sentinel "ALERT-UNKNOWN"; and every event-id string
absent from the seven-entry table, "ALERT-UNKNOWN" included, resolves via
`get_troubleshooting_steps` to the fixed default record with event name
"Unknown Event", the generic immediate actions, the generic escalation
text, and severity "Unknown". -/
theorem claim3_unmatched_gives_unknown_and_default {α : Type}
    (alarm_message : List Char) (d : α) (event_id : String)
    (h1 : cpu_rule (pyLower alarm_message) = false)
    (h2 : memory_rule (pyLower alarm_message) = false)
    (h3 : connection_rule (pyLower alarm_message) = false)
    (h4 : disk_rule (pyLower alarm_message) = false)
    (h5 : service_rule (pyLower alarm_message) = false)
    (h6 : auth_rule (pyLower alarm_message) = false)
    (h7 : network_rule (pyLower alarm_message) = false)
    (hid : event_id ∉ alert_steps.map Prod.fst) :
    identify_event_id alarm_message d = "ALERT-UNKNOWN" ∧
    get_troubleshooting_steps event_id = unknown_steps ∧
    "ALERT-UNKNOWN" ∉ alert_steps.map Prod.fst ∧
    get_troubleshooting_steps "ALERT-UNKNOWN" = unknown_steps ∧
    unknown_steps.event_name = "Unknown Event" ∧
    unknown_steps.immediate_actions =
      ["Review alarm details", "Check system logs"] ∧
    unknown_steps.escalation = "Contact system admin team for analysis" ∧
    unknown_steps.severity = "Unknown" := by
  refine ⟨?_, ?_, by decide, by decide, rfl, rfl, rfl, rfl⟩
  · simp [identify_event_id, h1, h2, h3, h4, h5, h6, h7]
  · unfold get_troubleshooting_steps _get_predefined_steps
    rw [lookup_eq_none_of_not_mem_keys _ _ hid]
    rfl

theorem claim3_witness :
    cpu_rule (pyLower "unrecognized gibberish alarm xyz".toList) = false ∧
    identify_event_id "unrecognized gibberish alarm xyz".toList 0 =
      "ALERT-UNKNOWN" ∧
    get_troubleshooting_steps "ALERT-UNKNOWN" = unknown_steps :=
  ⟨by decide,
    (claim3_unmatched_gives_unknown_and_default _ 0 "ALERT-UNKNOWN"
      (by decide) (by decide) (by decide) (by decide) (by decide) (by decide)
      (by decide) (by decide)).1,
    (claim3_unmatched_gives_unknown_and_default
      "unrecognized gibberish alarm xyz".toList 0 "ALERT-UNKNOWN"
      (by decide) (by decide) (by decide) (by decide) (by decide) (by decide)
      (by decide) (by decide)).2.2.2.1⟩

/-- C4: the classifier is total over the closed EventId set: for every
alarm message and documentation value, `identify_event_id` returns one of
the eight identifiers. -/
theorem claim4_identify_event_id_closed_set {α : Type}
    (alarm_message : List Char) (d : α) :
    identify_event_id alarm_message d ∈
      (["SYS-001", "SYS-002", "NET-001", "STO-001", "APP-001", "AUTH-001",
        "NET-002", "ALERT-UNKNOWN"] : List String) := by
  simp only [identify_event_id]
  split_ifs <;> simp

/-- C5: when the documentation search raises, `search_alarm_documentation`
does not propagate the exception: it returns the fallback dictionary with
`documentation_found = false`, `fallback_used = true`, and the extracted
keywords still present. -/
theorem claim5_search_fallback_on_error
    (search_confluence_content : List Char → Except String SearchResult)
    (alarm_message : List Char) (e : String)
    (hfail : search_confluence_content
        (List.intercalate [' '] (_extract_keywords alarm_message)) =
      Except.error e) :
    (search_alarm_documentation search_confluence_content
      alarm_message).documentation_found = false ∧
    (search_alarm_documentation search_confluence_content
      alarm_message).fallback_used = true ∧
    (search_alarm_documentation search_confluence_content
      alarm_message).keywords = _extract_keywords alarm_message ∧
    (search_alarm_documentation search_confluence_content
      alarm_message).error = some e := by
  unfold search_alarm_documentation
  simp [hfail]

theorem claim5_witness :
    (search_alarm_documentation (fun _ => Except.error "search unavailable")
      "cpu down".toList).documentation_found = false ∧
    (search_alarm_documentation (fun _ => Except.error "search unavailable")
      "cpu down".toList).fallback_used = true ∧
    (search_alarm_documentation (fun _ => Except.error "search unavailable")
      "cpu down".toList).keywords = _extract_keywords "cpu down".toList ∧
    (search_alarm_documentation (fun _ => Except.error "search unavailable")
      "cpu down".toList).error = some "search unavailable" :=
  claim5_search_fallback_on_error _ "cpu down".toList "search unavailable" rfl

/-- C6: if the analysis stage succeeds but the frontline-response action
stage returns status "error", `analyze_alert` returns the pre-action
analysis result, whose status is "success", instead of propagating the
action failure. -/
theorem claim6_action_error_falls_back_to_analysis
    (run_analysis : List Char → AnalysisResult)
    (take_action : List Char → String → ActionResult)
    (alert_message : List Char)
    (hana : (run_analysis alert_message).status = "success")
    (hact : (take_action alert_message
        (run_analysis alert_message).analysis_response).status = "error") :
    analyze_alert run_analysis take_action alert_message =
      run_analysis alert_message ∧
    (analyze_alert run_analysis take_action alert_message).status =
      "success" := by
  have hne : ("error" : String) ≠ "success" := by decide
  constructor
  · simp [analyze_alert, hana, hact, hne]
  · simp [analyze_alert, hana, hact, hne]

theorem claim6_witness :
    analyze_alert
        (fun m =>
          { alert_message := m, analysis_response := "analysis text",
            error := none, status := "success" })
        (fun m a =>
          { alarm_text := m, analysis := a, response := "",
            error := some "dispatch failed", status := "error" })
        "cpu high 90%".toList =
      { alert_message := "cpu high 90%".toList,
        analysis_response := "analysis text", error := none,
        status := "success" } ∧
    (analyze_alert
        (fun m =>
          { alert_message := m, analysis_response := "analysis text",
            error := none, status := "success" })
        (fun m a =>
          { alarm_text := m, analysis := a, response := "",
            error := some "dispatch failed", status := "error" })
        "cpu high 90%".toList).status = "success" :=
  claim6_action_error_falls_back_to_analysis _ _ "cpu high 90%".toList rfl rfl

/-- C7: the classifier's documentation argument is inert: for every alarm
message and any two documentation values, of any types, the results of
`identify_event_id` coincide; the result depends only on the alarm text. -/
theorem claim7_documentation_argument_inert {α β : Type}
    (alarm_message : List Char) (d1 : α) (d2 : β) :
    identify_event_id alarm_message d1 = identify_event_id alarm_message d2 :=
  rfl

/-- C8: the keyword extractor returns exactly the vocabulary tokens
contained case-insensitively in the alarm text, in the contract's
vocabulary scan order, followed by all numeric tokens — each matching
`\d+%?` — found in the original text left to right; empty input yields an
empty keyword list, and the extractor is a total function (no error is
ever raised). -/
theorem claim8_extract_keywords_characterization (alarm_message : List Char) :
    _extract_keywords alarm_message =
      alert_keywords.filter (fun k => pyIn k (pyLower alarm_message)) ++
        findNumbers alarm_message ∧
    (findNumbers alarm_message).all isNumericToken = true ∧
    _extract_keywords [] = [] := by
  refine ⟨?_, findNumbersAux_all_numeric alarm_message [] rfl, by decide⟩
  simp only [_extract_keywords]
  rw [foldl_append_if_eq_filter (fun k => pyIn k (pyLower alarm_message))]
  simp

/-- C9: remediation lookup is pure and idempotent: with the ambient state
threaded explicitly, looking up the same event id twice in sequence yields
structurally identical records, and the state — in particular any table it
might hold — is returned unchanged; `get_troubleshooting_steps` is exactly
the static-table lookup `_get_predefined_steps`. -/
theorem claim9_lookup_pure_idempotent {σ : Type} (world : σ)
    (event_id : String) :
    (get_troubleshooting_stepsSt world event_id).1 =
      (get_troubleshooting_stepsSt
        (get_troubleshooting_stepsSt world event_id).2 event_id).1 ∧
    (get_troubleshooting_stepsSt world event_id).2 = world ∧
    get_troubleshooting_steps event_id = _get_predefined_steps event_id :=
  ⟨rfl, rfl, rfl⟩

/-- C10: because the numeric threshold tests are raw substring containment,
every alarm text containing "cpu" case-insensitively together with "90" or
"95" anywhere as a digit substring — also inside a longer number such as
"195" — is classified "SYS-001" by `identify_event_id`, with no need for
the word "high". -/
theorem claim10_cpu_numeric_substring_sys001 {α : Type}
    (alarm_message : List Char) (d : α)
    (hcpu : pyIn "cpu".toList (pyLower alarm_message) = true)
    (hnum : pyIn "90".toList (pyLower alarm_message) = true ∨
      pyIn "95".toList (pyLower alarm_message) = true) :
    identify_event_id alarm_message d = "SYS-001" := by
  have hr : cpu_rule (pyLower alarm_message) = true := by
    unfold cpu_rule
    rcases hnum with h | h <;> rw [hcpu, h] <;> simp
  simp [identify_event_id, hr]

theorem claim10_witness :
    pyIn "high".toList (pyLower "CPU load at 195".toList) = false ∧
    pyIn "95".toList (pyLower "CPU load at 195".toList) = true ∧
    identify_event_id "CPU load at 195".toList 0 = "SYS-001" :=
  ⟨by decide, by decide,
    claim10_cpu_numeric_substring_sys001 _ 0 (by decide)
      (Or.inr (by decide))⟩

end AlertAssistant
